import Mathlib

/-!
Verification of `validate_hal.py`, the source-tree auditor of the
intel-ethernet-hal repository.

The script is a one-shot checklist runner: it inspects a filesystem
(existence checks and whole-file text reads) and prints report lines.
We embed it shallowly:

* the filesystem is a structure `FS` giving, for every path, whether it
  exists (`os.path.exists`) and the result of opening and reading it as
  text (`Except errMsg content`, an error modelling any `OSError` /
  decode exception raised by `open`/`read`);
* each Python function becomes a Lean function returning the list of
  lines it prints together with its return value;
* Python's substring test (`needle in content`) is `strContains`;
* `re.findall` counts for the three concrete patterns of the script are
  modelled by deterministic matchers (`\w+`, `\s*`, `[^)]*` etc. are
  maximal-munch, which coincides with Python's backtracking here because
  each repeated class is disjoint from the character that must follow);
  `\w` is modelled as ASCII alphanumeric or underscore.
-/

/-- The filesystem as seen by the script: `pathExists` models
`os.path.exists`, `readFile` models `open(p).read()` — `Except.error e`
is a raised exception whose message prints as `e`. -/
structure FS where
  pathExists : String → Bool
  readFile : String → Except String String

/-- A well-formed filesystem: opening a path that does not exist raises
(`FileNotFoundError`). -/
def FS.WF (fs : FS) : Prop :=
  ∀ p, fs.pathExists p = false → ∃ e, fs.readFile p = Except.error e

/-- `listIsPrefixOf n h` : the char list `n` is a prefix of `h`. -/
def listIsPrefixOf : List Char → List Char → Bool
  | [], _ => true
  | _ :: _, [] => false
  | c :: cs, d :: ds => c == d && listIsPrefixOf cs ds

/-- `listContainsSub n h` : `n` occurs as a contiguous sublist of `h`. -/
def listContainsSub (needle : List Char) : List Char → Bool
  | [] => needle.isEmpty
  | d :: ds => listIsPrefixOf needle (d :: ds) || listContainsSub needle ds

/-- Python's substring test `needle in hay`. -/
def strContains (hay needle : String) : Bool :=
  listContainsSub needle.data hay.data

/-- `os.path.basename` for the slash-separated paths the script uses: the
suffix of the path after its last `/`. -/
def basename (p : String) : String :=
  ⟨(p.data.reverse.takeWhile (fun c => !(c == '/'))).reverse⟩

/-- Python regex `\w` (ASCII model): alphanumeric or underscore. -/
def isWordChar (c : Char) : Bool := c.isAlphanum || c == '_'

/-- Python regex `\s`: the six ASCII whitespace characters. -/
def isSpaceChar (c : Char) : Bool :=
  c == ' ' || c == '\t' || c == '\n' || c == '\r' || c == '\x0b' || c == '\x0c'

/-- Match a literal char sequence at the head, returning the remainder. -/
def matchLit : List Char → List Char → Option (List Char)
  | [], s => some s
  | _ :: _, [] => none
  | c :: cs, d :: ds => if c == d then matchLit cs ds else none

/-- Match one-or-more chars satisfying `p` (greedy), returning the remainder. -/
def onePlus (p : Char → Bool) : List Char → Option (List Char)
  | [] => none
  | c :: cs => if p c then some (cs.dropWhile p) else none

/-- Match exactly one char drawn from `cs`, returning the remainder. -/
def oneOf (cs : List Char) : List Char → Option (List Char)
  | [] => none
  | d :: ds => if cs.contains d then some ds else none

/-- Match Python regex `intel_hal_\w+\s*\(` at the head of `s`; returns the
length of the match. -/
def tryMatchHalFunc (s : List Char) : Option Nat := do
  let r1 ← matchLit "intel_hal_".data s
  let r2 ← onePlus isWordChar r1
  let r3 := r2.dropWhile isSpaceChar
  let r4 ← oneOf ['('] r3
  pure (s.length - r4.length)

/-- Match Python regex `#include\s+[<"][^<>"]+[>"]` at the head of `s`. -/
def tryMatchInclude (s : List Char) : Option Nat := do
  let r1 ← matchLit "#include".data s
  let r2 ← onePlus isSpaceChar r1
  let r3 ← oneOf ['<', '"'] r2
  let r4 ← onePlus (fun c => !(c == '<' || c == '>' || c == '"')) r3
  let r5 ← oneOf ['>', '"'] r4
  pure (s.length - r5.length)

/-- Match Python regex `intel_\w+\s*\([^)]*\)\s*{` at the head of `s`. -/
def tryMatchFuncImpl (s : List Char) : Option Nat := do
  let r1 ← matchLit "intel_".data s
  let r2 ← onePlus isWordChar r1
  let r3 := r2.dropWhile isSpaceChar
  let r4 ← oneOf ['('] r3
  let r5 := r4.dropWhile (fun c => !(c == ')'))
  let r6 ← oneOf [')'] r5
  let r7 := r6.dropWhile isSpaceChar
  let r8 ← oneOf ['\x7b'] r7
  pure (s.length - r8.length)

/-- `re.findall` counting: scan left to right, at each position try the
pattern; on a match continue after it (our patterns never match the empty
string, so `n - 1` chars of the tail are skipped).  Fuel equals the list
length, which suffices since every step consumes at least one char. -/
def countMatchesFuel (tryM : List Char → Option Nat) : Nat → List Char → Nat
  | 0, _ => 0
  | _, [] => 0
  | fuel + 1, c :: rest =>
    match tryM (c :: rest) with
    | some n => 1 + countMatchesFuel tryM fuel (rest.drop (n - 1))
    | none => countMatchesFuel tryM fuel rest

/-- Number of `re.findall` matches of the pattern in the string. -/
def countMatches (tryM : List Char → Option Nat) (s : String) : Nat :=
  countMatchesFuel tryM s.data.length s.data

/-- `len(re.findall(r'intel_hal_\w+\s*\(', content))`. -/
def countHalFuncs (content : String) : Nat := countMatches tryMatchHalFunc content

/-- `len(re.findall(r'#include\s+[<"][^<>"]+[>"]', content))`. -/
def countIncludes (content : String) : Nat := countMatches tryMatchInclude content

/-- `len(re.findall(r'intel_\w+\s*\([^)]*\)\s*{', content))`. -/
def countFuncImpls (content : String) : Nat := countMatches tryMatchFuncImpl content

/-- `check_file_exists` (validate_hal.py lines 17-23): prints one line and
returns whether `os.path.exists` holds; the file is never opened. -/
def check_file_exists (fs : FS) (filepath : String) : List String × Bool :=
  if !(fs.pathExists filepath) then
    (["❌ Missing file: " ++ filepath], false)
  else
    (["✅ Found: " ++ filepath], true)

/-- `check_header_syntax` (lines 25-52): read the file (any exception is
caught and reported), then three independent tests. -/
def check_header_syntax (fs : FS) (filepath : String) : List String × Bool :=
  match fs.readFile filepath with
  | Except.error e => (["❌ Error reading " ++ filepath ++ ": " ++ e], false)
  | Except.ok content =>
    ((if strContains content "#ifndef" || strContains content "#pragma once" then
        ["✅ Header guards found in " ++ basename filepath]
      else
        ["⚠️  No header guards in " ++ basename filepath])
     ++ (if strContains content "extern \"C\"" then
        ["✅ C++ compatibility in " ++ basename filepath]
      else
        ["⚠️  No C++ compatibility wrapper in " ++ basename filepath])
     ++ ["✅ Found " ++ toString (countHalFuncs content) ++ " HAL functions in "
          ++ basename filepath],
     true)

/-- `check_source_structure` (lines 54-82): read the file (exceptions
caught), then the includes count (only when `#include` occurs), the
function-implementation count (always), and two presence-only markers. -/
def check_source_structure (fs : FS) (filepath : String) : List String × Bool :=
  match fs.readFile filepath with
  | Except.error e => (["❌ Error reading " ++ filepath ++ ": " ++ e], false)
  | Except.ok content =>
    ((if strContains content "#include" then
        ["✅ Found " ++ toString (countIncludes content) ++ " includes in "
          ++ basename filepath]
      else [])
     ++ ["✅ Found " ++ toString (countFuncImpls content)
          ++ " function implementations in " ++ basename filepath]
     ++ (if strContains content "INTEL_HAL_WINDOWS" || strContains content "WIN32" then
        ["✅ Windows-specific code found in " ++ basename filepath]
      else [])
     ++ (if strContains content "INTEL_HAL_ERROR" || strContains content "set_last_error" then
        ["✅ Error handling found in " ++ basename filepath]
      else []),
     true)

/-- `required_dirs` (lines 92-98). -/
def required_dirs : List String :=
  ["include", "src/common", "src/windows", "src/hal", "examples"]

/-- `required_files` (lines 110-118). -/
def required_files : List String :=
  ["include/intel_ethernet_hal.h",
   "src/common/intel_device.c",
   "src/windows/intel_ndis.c",
   "src/hal/intel_hal.c",
   "examples/hal_device_info.c",
   "CMakeLists.txt",
   "README.md"]

/-- `source_files` (lines 134-138). -/
def source_files : List String :=
  ["src/common/intel_device.c", "src/windows/intel_ndis.c", "src/hal/intel_hal.c"]

/-- One iteration of the file-presence loop (lines 121-123): print the
check's line and clear `all_files_present` when the check fails. -/
def filePhaseStep (fs : FS) (acc : List String × Bool) (filepath : String) :
    List String × Bool :=
  let r := check_file_exists fs filepath
  (acc.1 ++ r.1, acc.2 && r.2)

/-- The file-presence loop (lines 120-123): each file is checked and its
line printed, starting from `all_files_present = True`. -/
def filePhase (fs : FS) : List String × Bool :=
  required_files.foldl (filePhaseStep fs) ([], true)

/-- The source-analysis loop (lines 140-143) over a given file list: a file
is analyzed (followed by a blank line) only when it exists. -/
def sourcePhaseOver (fs : FS) (files : List String) : List String :=
  files.flatMap fun f =>
    if fs.pathExists f then (check_source_structure fs f).1 ++ [""] else []

/-- The source-analysis loop applied to `source_files`. -/
def sourcePhase (fs : FS) : List String :=
  sourcePhaseOver fs source_files

/-- The I219 feature-marker check (lines 146-161): read
`src/common/intel_device.c` (an exception prints one error line), then four
independent presence-only marker lines. -/
def featurePhase (fs : FS) : List String :=
  match fs.readFile "src/common/intel_device.c" with
  | Except.error e => ["❌ Error checking I219 support: " ++ e]
  | Except.ok content =>
    (if strContains content "0x0DC7" then
      ["✅ I219-LM (0x0DC7) support found"] else [])
    ++ (if strContains content "INTEL_FAMILY_I219" then
      ["✅ I219 family support found"] else [])
    ++ (if strContains content "INTEL_CAP_BASIC_1588" then
      ["✅ IEEE 1588 capability support found"] else [])
    ++ (if strContains content "INTEL_CAP_MDIO" then
      ["✅ MDIO capability support found"] else [])

/-- The summary block (lines 166-185): one line selected by
`all_files_present`, four static assertion lines, and the fixed four-item
next-steps footer. -/
def summaryLines (all_files_present : Bool) : List String :=
  ["📊 Validation Summary", "===================="]
  ++ [if all_files_present then "✅ All required files present"
      else "❌ Some required files missing"]
  ++ ["✅ HAL architecture looks correct",
      "✅ Windows NDIS integration implemented",
      "✅ I219 hardware support confirmed",
      "✅ Cross-platform structure in place",
      "",
      "🎯 Next Steps:",
      "1. Install a C compiler (MinGW, Visual Studio, or MSYS2)",
      "2. Run build_windows.bat to compile the HAL",
      "3. Test with hal_device_info.exe on your I219 hardware",
      "4. Integrate as submodule into OpenAvnu project",
      ""]

/-- `validate_hal_implementation` (lines 84-187): the full run, as the
sequence of lines printed to stdout paired with the return value. -/
def validate_hal_implementation (fs : FS) : List String × Bool :=
  let fp := filePhase fs
  (["Intel Ethernet HAL - Code Validation",
    "====================================",
    "",
    "📁 Checking directory structure..."]
   ++ required_dirs.map (fun d =>
        if fs.pathExists d then "✅ Directory: " ++ d
        else "❌ Missing directory: " ++ d)
   ++ ["", "📄 Checking required files..."]
   ++ fp.1
   ++ ["", "🔍 Analyzing header file..."]
   ++ ( check_header_syntax fs "include/intel_ethernet_hal.h").1
   ++ ["", "🔍 Analyzing source files..."]
   ++ sourcePhase fs
   ++ ["🎯 Checking I219 support..."]
   ++ featurePhase fs
   ++ [""]
   ++ summaryLines fp.2,
   true)

/-! ## Basic lemmas about the phases -/

lemma check_file_exists_fst (fs : FS) (p : String) :
    (check_file_exists fs p).1
      = [if fs.pathExists p then "✅ Found: " ++ p else "❌ Missing file: " ++ p] := by
  unfold check_file_exists
  cases h : fs.pathExists p <;> simp [h]

lemma check_file_exists_snd (fs : FS) (p : String) :
    (check_file_exists fs p).2 = fs.pathExists p := by
  unfold check_file_exists
  cases h : fs.pathExists p <;> simp [h]

lemma flatMap_singleton_eq_map {α β : Type} (f : α → β) (l : List α) :
    (l.flatMap fun a => [f a]) = l.map f := by
  induction l with
  | nil => rfl
  | cons a t ih => simp [ih]

lemma filePhase_foldl (fs : FS) (l : List String) (acc : List String) (b : Bool) :
    l.foldl (filePhaseStep fs) (acc, b)
      = (acc ++ l.flatMap (fun p => (check_file_exists fs p).1),
         b && l.all fun p => fs.pathExists p) := by
  induction l generalizing acc b with
  | nil => simp
  | cons p t ih =>
    rw [List.foldl_cons,
      show filePhaseStep fs (acc, b) p
        = (acc ++ (check_file_exists fs p).1, b && (check_file_exists fs p).2) from rfl,
      ih]
    simp [check_file_exists_snd, List.append_assoc, Bool.and_assoc]

lemma filePhase_spec (fs : FS) :
    filePhase fs
      = (required_files.map (fun p =>
           if fs.pathExists p then "✅ Found: " ++ p else "❌ Missing file: " ++ p),
         required_files.all fun p => fs.pathExists p) := by
  unfold filePhase
  rw [filePhase_foldl]
  simp [check_file_exists_fst, flatMap_singleton_eq_map]

lemma filePhase_fst (fs : FS) :
    (filePhase fs).1
      = required_files.map (fun p =>
          if fs.pathExists p then "✅ Found: " ++ p else "❌ Missing file: " ++ p) := by
  rw [filePhase_spec]

lemma filePhase_snd (fs : FS) :
    (filePhase fs).2 = (required_files.all fun p => fs.pathExists p) := by
  rw [filePhase_spec]

lemma run_eq_prefix_append_summary (fs : FS) :
    ∃ pre, (validate_hal_implementation fs).1
      = pre ++ summaryLines ((filePhase fs).2) :=
  ⟨_, rfl⟩

/-! ## Claims -/

/-- C1: the file-presence phase emits exactly one report line per entry of
`required_files` (seven entries, in list order), and the aggregate
`all_files_present` flag equals the logical AND of the per-entry existence
results; every entry is checked and reported even after an earlier entry is
missing. -/
theorem file_phase_one_line_per_entry_and_flag_is_and (fs : FS) :
    (filePhase fs).1
      = required_files.map (fun p =>
          if fs.pathExists p then "✅ Found: " ++ p else "❌ Missing file: " ++ p)
    ∧ (filePhase fs).1.length = required_files.length
    ∧ required_files.length = 7
    ∧ (filePhase fs).2 = (required_files.all fun p => fs.pathExists p) := by
  refine ⟨filePhase_fst fs, ?_, rfl, filePhase_snd fs⟩
  rw [filePhase_fst]
  exact List.length_map _ _

/-- C2: on every filesystem state, `validate_hal_implementation` runs to
completion (it is a total function of the filesystem), returns `True`, and
its output always ends with the summary block. -/
theorem validator_always_completes_and_returns_true (fs : FS) :
    (validate_hal_implementation fs).2 = true
    ∧ ∃ pre, (validate_hal_implementation fs).1
        = pre ++ summaryLines ((filePhase fs).2) :=
  ⟨rfl, run_eq_prefix_append_summary fs⟩

/-- A filesystem on which every path exists but opening any path raises
(e.g. a permission error). -/
def fsUnreadable : FS :=
  { pathExists := fun _ => true,
    readFile := fun _ => Except.error "Permission denied" }

/-- C3 (code bug evidence): `check_file_exists` claims in its docstring to
check that the file "exists and is readable", but it never opens the file:
on a filesystem where `CMakeLists.txt` exists yet reading it raises a
permission error, the check still prints the success line and returns
`True`. -/
theorem presence_check_ignores_readability :
    fsUnreadable.readFile "CMakeLists.txt" = Except.error "Permission denied"
    ∧ check_file_exists fsUnreadable "CMakeLists.txt"
        = (["✅ Found: CMakeLists.txt"], true) := by
  exact ⟨rfl, by decide⟩

/-- A filesystem on which every path exists and every file is empty. -/
def fsEmptyFile : FS :=
  { pathExists := fun _ => true,
    readFile := fun _ => Except.ok "" }

/-- C4 (counterexample): on a readable but empty implementation file the
source structural check prints one single line (the function-implementation
count); there is no includes-count line and no line stating the absence of
the platform-specific or error-handling markers. -/
theorem source_structure_counterexample_empty_file :
    (check_source_structure fsEmptyFile "src/common/intel_device.c").1
      = ["✅ Found 0 function implementations in intel_device.c"] := by
  decide

/-- C4 (amended): for every readable implementation file the source
structural check always reports the function-implementation count; it
reports the includes count only when `#include` occurs in the contents, and
it emits the platform-specific-marker and error-handling-marker lines only
when the markers are present — absence produces no line — and the check
returns normally. -/
theorem source_structure_lines_characterization (fs : FS) (path content : String)
    (hr : fs.readFile path = Except.ok content) :
    check_source_structure fs path
      = ((if strContains content "#include" then
            ["✅ Found " ++ toString (countIncludes content) ++ " includes in "
              ++ basename path]
          else [])
         ++ ["✅ Found " ++ toString (countFuncImpls content)
              ++ " function implementations in " ++ basename path]
         ++ (if strContains content "INTEL_HAL_WINDOWS" || strContains content "WIN32" then
            ["✅ Windows-specific code found in " ++ basename path]
          else [])
         ++ (if strContains content "INTEL_HAL_ERROR" || strContains content "set_last_error" then
            ["✅ Error handling found in " ++ basename path]
          else []),
         true) := by
  unfold check_source_structure
  rw [hr]

/-- C4 witness: the amended characterization evaluated on the concrete
empty-file filesystem. -/
theorem source_structure_lines_characterization_witness :
    fsEmptyFile.readFile "src/hal/intel_hal.c" = Except.ok ""
    ∧ check_source_structure fsEmptyFile "src/hal/intel_hal.c"
        = ((if strContains "" "#include" then
              ["✅ Found " ++ toString (countIncludes "") ++ " includes in "
                ++ basename "src/hal/intel_hal.c"]
            else [])
           ++ ["✅ Found " ++ toString (countFuncImpls "")
                ++ " function implementations in " ++ basename "src/hal/intel_hal.c"]
           ++ (if strContains "" "INTEL_HAL_WINDOWS" || strContains "" "WIN32" then
              ["✅ Windows-specific code found in " ++ basename "src/hal/intel_hal.c"]
            else [])
           ++ (if strContains "" "INTEL_HAL_ERROR" || strContains "" "set_last_error" then
              ["✅ Error handling found in " ++ basename "src/hal/intel_hal.c"]
            else []),
           true) :=
  ⟨rfl, source_structure_lines_characterization fsEmptyFile "src/hal/intel_hal.c" "" rfl⟩

/-- C5: on a well-formed filesystem where `src/common/intel_device.c` does
not exist, the feature-marker check catches the raised error and prints
exactly one error line, and the run still ends with the summary block,
whose selector is the aggregate flag from the file-presence phase alone
(the AND of the existence results) — the feature check does not affect it. -/
theorem feature_check_missing_file_caught (fs : FS) (hwf : FS.WF fs)
    (h : fs.pathExists "src/common/intel_device.c" = false) :
    (∃ e, featurePhase fs = ["❌ Error checking I219 support: " ++ e])
    ∧ ∃ pre, (validate_hal_implementation fs).1
        = pre ++ summaryLines (required_files.all fun p => fs.pathExists p) := by
  obtain ⟨e, he⟩ := hwf _ h
  refine ⟨⟨e, ?_⟩, ?_⟩
  · unfold featurePhase
    rw [he]
  · obtain ⟨pre, hp⟩ := run_eq_prefix_append_summary fs
    exact ⟨pre, by rw [hp, filePhase_snd]⟩

/-- A filesystem on which nothing exists and every open raises. -/
def fsAllMissing : FS :=
  { pathExists := fun _ => false,
    readFile := fun _ => Except.error "No such file or directory" }

/-- C5 witness: the theorem applied to the concrete all-missing filesystem. -/
theorem feature_check_missing_file_caught_witness :
    fsAllMissing.pathExists "src/common/intel_device.c" = false
    ∧ ((∃ e, featurePhase fsAllMissing = ["❌ Error checking I219 support: " ++ e])
       ∧ ∃ pre, (validate_hal_implementation fsAllMissing).1
           = pre ++ summaryLines (required_files.all fun p => fsAllMissing.pathExists p)) :=
  ⟨rfl, feature_check_missing_file_caught fsAllMissing
    (fun _ _ => ⟨"No such file or directory", rfl⟩) rfl⟩

/-- C6: when the designated feature file reads successfully and its contents
contain `0x0DC7` but not `INTEL_CAP_MDIO`, the feature-marker section prints
the found line for `0x0DC7` and prints nothing at all for `INTEL_CAP_MDIO`;
each marker line appears only when the marker is present. -/
theorem feature_markers_only_reported_when_present (fs : FS) (content : String)
    (hr : fs.readFile "src/common/intel_device.c" = Except.ok content)
    (h1 : strContains content "0x0DC7" = true)
    (h2 : strContains content "INTEL_CAP_MDIO" = false) :
    featurePhase fs
      = ["✅ I219-LM (0x0DC7) support found"]
        ++ (if strContains content "INTEL_FAMILY_I219" then
            ["✅ I219 family support found"] else [])
        ++ (if strContains content "INTEL_CAP_BASIC_1588" then
            ["✅ IEEE 1588 capability support found"] else [])
    ∧ "✅ MDIO capability support found" ∉ featurePhase fs := by
  have hF : featurePhase fs
      = ["✅ I219-LM (0x0DC7) support found"]
        ++ (if strContains content "INTEL_FAMILY_I219" then
            ["✅ I219 family support found"] else [])
        ++ (if strContains content "INTEL_CAP_BASIC_1588" then
            ["✅ IEEE 1588 capability support found"] else []) := by
    unfold featurePhase
    rw [hr]
    simp [h1, h2]
  refine ⟨hF, ?_⟩
  rw [hF]
  split_ifs <;> decide

/-- A filesystem whose files all read as the single marker `0x0DC7`. -/
def fsMarkerOnly : FS :=
  { pathExists := fun _ => true,
    readFile := fun _ => Except.ok "0x0DC7" }

/-- C6 witness: the theorem applied to a feature file whose contents are
exactly `0x0DC7`. -/
theorem feature_markers_only_reported_when_present_witness :
    strContains "0x0DC7" "0x0DC7" = true
    ∧ strContains "0x0DC7" "INTEL_CAP_MDIO" = false
    ∧ (featurePhase fsMarkerOnly
        = ["✅ I219-LM (0x0DC7) support found"]
          ++ (if strContains "0x0DC7" "INTEL_FAMILY_I219" then
              ["✅ I219 family support found"] else [])
          ++ (if strContains "0x0DC7" "INTEL_CAP_BASIC_1588" then
              ["✅ IEEE 1588 capability support found"] else [])
       ∧ "✅ MDIO capability support found" ∉ featurePhase fsMarkerOnly) :=
  ⟨by decide, by decide,
   feature_markers_only_reported_when_present fsMarkerOnly "0x0DC7" rfl
     (by decide) (by decide)⟩

/-- C7: on a readable header whose contents contain `#ifndef` or
`#pragma once` and do not contain `extern "C"`, the header structural check
emits the guard success line, then the C++-compatibility warning line, then
the HAL-function count line — the guard line strictly before the wrapper
line — and returns normally. -/
theorem header_guard_pass_precedes_wrapper_warning (fs : FS) (path content : String)
    (hr : fs.readFile path = Except.ok content)
    (hg : (strContains content "#ifndef" || strContains content "#pragma once") = true)
    (hw : strContains content "extern \"C\"" = false) :
    check_header_syntax fs path
      = (["✅ Header guards found in " ++ basename path,
          "⚠️  No C++ compatibility wrapper in " ++ basename path,
          "✅ Found " ++ toString (countHalFuncs content) ++ " HAL functions in "
            ++ basename path],
         true) := by
  unfold check_header_syntax
  rw [hr]
  simp [hg, hw]

/-- A filesystem whose files all read as a guarded header without an
`extern "C"` wrapper. -/
def fsGuardedHeader : FS :=
  { pathExists := fun _ => true,
    readFile := fun _ => Except.ok "#ifndef X_H\nintel_hal_init();\n" }

/-- C7 witness: the theorem applied to a concrete guarded header. -/
theorem header_guard_pass_precedes_wrapper_warning_witness :
    (strContains "#ifndef X_H\nintel_hal_init();\n" "#ifndef"
      || strContains "#ifndef X_H\nintel_hal_init();\n" "#pragma once") = true
    ∧ strContains "#ifndef X_H\nintel_hal_init();\n" "extern \"C\"" = false
    ∧ check_header_syntax fsGuardedHeader "include/intel_ethernet_hal.h"
        = (["✅ Header guards found in " ++ basename "include/intel_ethernet_hal.h",
            "⚠️  No C++ compatibility wrapper in "
              ++ basename "include/intel_ethernet_hal.h",
            "✅ Found "
              ++ toString (countHalFuncs "#ifndef X_H\nintel_hal_init();\n")
              ++ " HAL functions in " ++ basename "include/intel_ethernet_hal.h"],
           true) :=
  ⟨by decide, by decide,
   header_guard_pass_precedes_wrapper_warning fsGuardedHeader
     "include/intel_ethernet_hal.h" "#ifndef X_H\nintel_hal_init();\n" rfl
     (by decide) (by decide)⟩

/-- C8: on any readable source file whose contents have zero matches of the
implementation-function pattern `intel_\w+\s*\([^)]*\)\s*{`, the source
structural check reports the count `0` and returns normally (the read
succeeded, so the exception branch is not taken). -/
theorem zero_function_impls_reported_as_zero (fs : FS) (path content : String)
    (hr : fs.readFile path = Except.ok content)
    (h0 : countFuncImpls content = 0) :
    ("✅ Found 0 function implementations in " ++ basename path)
      ∈ (check_source_structure fs path).1
    ∧ (check_source_structure fs path).2 = true := by
  unfold check_source_structure
  rw [hr]
  constructor
  · simp only [h0]
    rw [show "✅ Found 0 function implementations in " ++ basename path
        = "✅ Found " ++ toString (0 : Nat) ++ " function implementations in "
            ++ basename path from rfl]
    simp [List.mem_append]
  · rfl

/-- C8 witness: the theorem applied to an empty source file. -/
theorem zero_function_impls_reported_as_zero_witness :
    fsEmptyFile.readFile "src/windows/intel_ndis.c" = Except.ok ""
    ∧ countFuncImpls "" = 0
    ∧ (("✅ Found 0 function implementations in "
          ++ basename "src/windows/intel_ndis.c")
        ∈ (check_source_structure fsEmptyFile "src/windows/intel_ndis.c").1
       ∧ (check_source_structure fsEmptyFile "src/windows/intel_ndis.c").2 = true) :=
  ⟨rfl, by decide,
   zero_function_impls_reported_as_zero fsEmptyFile "src/windows/intel_ndis.c" ""
     rfl (by decide)⟩

/-- C9: the summary block is a function of the aggregate flag alone: every
run ends with `summaryLines` of its flag, and any two runs whose
file-existence conjunctions agree get character-for-character identical
summary blocks, whatever the directory, header, source, or feature checks
found on either filesystem. -/
theorem summary_block_depends_only_on_flag (fs₁ fs₂ : FS)
    (h : (filePhase fs₁).2 = (filePhase fs₂).2) :
    (∃ p₁, (validate_hal_implementation fs₁).1
        = p₁ ++ summaryLines ((filePhase fs₁).2))
    ∧ (∃ p₂, (validate_hal_implementation fs₂).1
        = p₂ ++ summaryLines ((filePhase fs₂).2))
    ∧ summaryLines ((filePhase fs₁).2) = summaryLines ((filePhase fs₂).2) :=
  ⟨run_eq_prefix_append_summary fs₁, run_eq_prefix_append_summary fs₂, by rw [h]⟩

/-- A second all-missing filesystem whose reads fail differently, so that
the two C9 runs differ everywhere except in the aggregate flag. -/
def fsAllMissingB : FS :=
  { pathExists := fun _ => false,
    readFile := fun _ => Except.error "Permission denied" }

/-- C9 witness: the theorem applied to two concrete runs with equal flags. -/
theorem summary_block_depends_only_on_flag_witness :
    (filePhase fsAllMissing).2 = (filePhase fsAllMissingB).2
    ∧ ((∃ p₁, (validate_hal_implementation fsAllMissing).1
          = p₁ ++ summaryLines ((filePhase fsAllMissing).2))
       ∧ (∃ p₂, (validate_hal_implementation fsAllMissingB).1
          = p₂ ++ summaryLines ((filePhase fsAllMissingB).2))
       ∧ summaryLines ((filePhase fsAllMissing).2)
          = summaryLines ((filePhase fsAllMissingB).2)) :=
  ⟨by decide, summary_block_depends_only_on_flag fsAllMissing fsAllMissingB (by decide)⟩

/-- C10: a file of the fixed source-analysis list that does not exist is
silently skipped by the source-analysis phase — its output is identical to
the phase run over the list with that file erased — while the same missing
file still gets its failure line in the earlier file-presence phase. -/
theorem missing_source_file_silently_skipped (fs : FS) (f : String)
    (hf : f ∈ source_files) (h : fs.pathExists f = false) :
    sourcePhase fs = sourcePhaseOver fs (source_files.erase f)
    ∧ ("❌ Missing file: " ++ f) ∈ (filePhase fs).1 := by
  have hf' : f = "src/common/intel_device.c" ∨ f = "src/windows/intel_ndis.c"
      ∨ f = "src/hal/intel_hal.c" := by
    simpa [source_files] using hf
  constructor
  · rcases hf' with rfl | rfl | rfl
    · show sourcePhaseOver fs source_files
        = sourcePhaseOver fs ["src/windows/intel_ndis.c", "src/hal/intel_hal.c"]
      simp [sourcePhaseOver, source_files, h]
    · show sourcePhaseOver fs source_files
        = sourcePhaseOver fs ["src/common/intel_device.c", "src/hal/intel_hal.c"]
      simp [sourcePhaseOver, source_files, h]
    · show sourcePhaseOver fs source_files
        = sourcePhaseOver fs ["src/common/intel_device.c", "src/windows/intel_ndis.c"]
      simp [sourcePhaseOver, source_files, h]
  · have hmem : f ∈ required_files := by
      rcases hf' with rfl | rfl | rfl <;> decide
    rw [filePhase_fst]
    exact List.mem_map.mpr ⟨f, hmem, by simp [h]⟩

/-- C10 witness: the theorem applied to the all-missing filesystem and the
file `src/windows/intel_ndis.c`. -/
theorem missing_source_file_silently_skipped_witness :
    "src/windows/intel_ndis.c" ∈ source_files
    ∧ fsAllMissing.pathExists "src/windows/intel_ndis.c" = false
    ∧ (sourcePhase fsAllMissing
        = sourcePhaseOver fsAllMissing (source_files.erase "src/windows/intel_ndis.c")
       ∧ ("❌ Missing file: " ++ "src/windows/intel_ndis.c")
          ∈ (filePhase fsAllMissing).1) :=
  ⟨by decide, rfl,
   missing_source_file_silently_skipped fsAllMissing "src/windows/intel_ndis.c"
     (by decide) rfl⟩
